import Mathlib

/-!
Verification of the AHRS example (examples/ahrs/ahrs.cpp) of the UKF
repository.  The concrete models, tuning constants and the two-filter
coupling driver live in that file; the generic UKF engine (UKF/Core.h and
friends) is an external library, so the driver is verified against an
abstract model of the filter step functions, with the spec supplying the
semantics of the missing library code where a claim depends on it.

Scalars are embedded as rationals (the code computes with IEEE reals; all
constants in the example are exactly representable), except where a square
root forces the reals.
-/

/-- UKF::Vector<3>: a 3-component column vector. -/
structure UKF.Vector3 where
  x : ℚ
  y : ℚ
  z : ℚ
deriving DecidableEq

instance : Add UKF.Vector3 :=
  ⟨fun a b => ⟨a.x + b.x, a.y + b.y, a.z + b.z⟩⟩

/-- Scalar multiple of a vector. -/
def UKF.Vector3.smul (c : ℚ) (v : UKF.Vector3) : UKF.Vector3 :=
  ⟨c * v.x, c * v.y, c * v.z⟩

/-- Coefficient-wise (Eigen `.array() *`) product. -/
def UKF.Vector3.cwiseMul (a b : UKF.Vector3) : UKF.Vector3 :=
  ⟨a.x * b.x, a.y * b.y, a.z * b.z⟩

/-- Cross product of 3-vectors. -/
def UKF.Vector3.cross (a b : UKF.Vector3) : UKF.Vector3 :=
  ⟨a.y * b.z - a.z * b.y, a.z * b.x - a.x * b.z, a.x * b.y - a.y * b.x⟩

/-- UKF::Quaternion (Eigen quaternion): scalar part w, vector part (x,y,z).
The Eigen constructor takes its arguments in the order w, x, y, z. -/
structure UKF.Quaternion where
  w : ℚ
  x : ℚ
  y : ℚ
  z : ℚ
deriving DecidableEq

/-- Vector part of a quaternion (Eigen `.vec()`). -/
def UKF.Quaternion.vec (q : UKF.Quaternion) : UKF.Vector3 :=
  ⟨q.x, q.y, q.z⟩

/-- Eigen quaternion product (Hamilton convention):
`(p * q).w = p.w q.w − p.vec · q.vec`,
`(p * q).vec = p.w q.vec + q.w p.vec + p.vec × q.vec`. -/
def UKF.Quaternion.mul (p q : UKF.Quaternion) : UKF.Quaternion :=
  ⟨p.w * q.w - (p.x * q.x + p.y * q.y + p.z * q.z),
   p.w * q.x + q.w * p.x + (p.y * q.z - p.z * q.y),
   p.w * q.y + q.w * p.y + (p.z * q.x - p.x * q.z),
   p.w * q.z + q.w * p.z + (p.x * q.y - p.y * q.x)⟩

/-- Eigen quaternion `.conjugate()`: negate the vector part. -/
def UKF.Quaternion.conj (q : UKF.Quaternion) : UKF.Quaternion :=
  ⟨q.w, -q.x, -q.y, -q.z⟩

/-- Eigen quaternion-vector product `q * v` (Quaternion::_transformVector):
`uv = 2 (q.vec × v); result = v + q.w uv + q.vec × uv`.
For a unit quaternion this is the rotation of `v` by `q`. -/
def UKF.Quaternion.transformVector (q : UKF.Quaternion) (v : UKF.Vector3) : UKF.Vector3 :=
  let uv := UKF.Vector3.smul 2 (UKF.Vector3.cross q.vec v)
  v + UKF.Vector3.smul q.w uv + UKF.Vector3.cross q.vec uv

/-- Value of g (ahrs.cpp line 18). -/
def G_ACCEL : ℚ := 9.80665

/-- Approximate magnitude of the Earth magnetic field in microTesla, used
only to initialise the magnetometer scale factor matrix (ahrs.cpp line 24). -/
def EARTH_MAG : ℚ := 45.0

/-- The AHRS state vector: attitude quaternion (NED frame to body frame),
angular velocity (body frame) and acceleration (body frame).
Covariance size 3 + 3 + 3 = 9 (quaternion contributes 3 tangent slots). -/
structure AHRS_StateVector where
  Attitude : UKF.Quaternion
  AngularVelocity : UKF.Vector3
  Acceleration : UKF.Vector3
deriving DecidableEq

/-- The parameter estimation filter state: per-sensor bias and scale factor
errors; the magnetometer scale factor is 9 free parameters (a 3x3 matrix
stored column-major).  Covariance size 5 * 3 + 9 = 24. -/
structure AHRS_SensorErrorVector where
  AccelerometerBias : UKF.Vector3
  AccelerometerScaleFactor : UKF.Vector3
  GyroscopeBias : UKF.Vector3
  GyroscopeScaleFactor : UKF.Vector3
  MagnetometerBias : UKF.Vector3
  MagnetometerScaleFactor : Fin 9 → ℚ

/-- AHRS process model (ahrs.cpp lines 80-97): constant linear acceleration,
attitude rate `omega_q.conjugate() * attitude` where `omega_q` has vector
part `AngularVelocity * 0.5` and scalar part 0, constant angular velocity. -/
def AHRS_StateVector.derivative (s : AHRS_StateVector) : AHRS_StateVector :=
  let omega_q : UKF.Quaternion :=
    ⟨0, s.AngularVelocity.x * 0.5, s.AngularVelocity.y * 0.5, s.AngularVelocity.z * 0.5⟩
  { Attitude := UKF.Quaternion.mul omega_q.conj s.Attitude
    AngularVelocity := ⟨0, 0, 0⟩
    Acceleration := ⟨0, 0, 0⟩ }

/-- Parameter estimation filter process model (ahrs.cpp lines 174-177):
sensor error evolution is unpredictable, so the derivative is zero. -/
def AHRS_SensorErrorVector.derivative (_s : AHRS_SensorErrorVector) : AHRS_SensorErrorVector :=
  { AccelerometerBias := ⟨0, 0, 0⟩
    AccelerometerScaleFactor := ⟨0, 0, 0⟩
    GyroscopeBias := ⟨0, 0, 0⟩
    GyroscopeScaleFactor := ⟨0, 0, 0⟩
    MagnetometerBias := ⟨0, 0, 0⟩
    MagnetometerScaleFactor := fun _ => 0 }

/-- Square rational matrix of side n. -/
abbrev MatQ (n : ℕ) := Fin n → Fin n → ℚ

/-- AHRS process noise covariance (ahrs.cpp lines 100-103): the stored
`process_noise` matrix (a mutable global, passed here explicitly) scaled by
the sample time delta. -/
def AHRS_StateVector.process_noise_covariance (process_noise : MatQ 9) (dt : ℚ) : MatQ 9 :=
  fun i j => process_noise i j * dt

/-- Parameter estimation filter process noise covariance (ahrs.cpp lines
180-183): the stored `error_process_noise` matrix scaled by dt. -/
def AHRS_SensorErrorVector.process_noise_covariance
    (error_process_noise : MatQ 24) (dt : ℚ) : MatQ 24 :=
  fun i j => error_process_noise i j * dt

/-- `Eigen::Map<UKF::Matrix<3, 3>>` of a 9-vector (column-major storage)
applied to a vector: `(M v)_i = Σ_j data[3 j + i] v_j`. -/
def UKF.mat3ColMajorMulVec (data : Fin 9 → ℚ) (v : UKF.Vector3) : UKF.Vector3 :=
  ⟨data 0 * v.x + data 3 * v.y + data 6 * v.z,
   data 1 * v.x + data 4 * v.y + data 7 * v.z,
   data 2 * v.x + data 5 * v.y + data 8 * v.z⟩

/-- Accelerometer measurement model with the parameter filter state as
input (ahrs.cpp lines 139-145). -/
def AHRS_MeasurementVector.expected_measurement_accelerometer
    (state : AHRS_StateVector) (input : AHRS_SensorErrorVector) : UKF.Vector3 :=
  input.AccelerometerBias + UKF.Vector3.cwiseMul input.AccelerometerScaleFactor
    (state.Acceleration + state.Attitude.transformVector ⟨0, 0, -G_ACCEL⟩)

/-- Gyroscope measurement model with the parameter filter state as input
(ahrs.cpp lines 147-153). -/
def AHRS_MeasurementVector.expected_measurement_gyroscope
    (state : AHRS_StateVector) (input : AHRS_SensorErrorVector) : UKF.Vector3 :=
  input.GyroscopeBias +
    UKF.Vector3.cwiseMul input.GyroscopeScaleFactor state.AngularVelocity

/-- Magnetometer measurement model with the parameter filter state as input
(ahrs.cpp lines 155-162). -/
def AHRS_MeasurementVector.expected_measurement_magnetometer
    (state : AHRS_StateVector) (input : AHRS_SensorErrorVector) : UKF.Vector3 :=
  input.MagnetometerBias + UKF.mat3ColMajorMulVec input.MagnetometerScaleFactor
    (state.Attitude.transformVector ⟨1.0, 0.0, 0.0⟩)

/-- Accelerometer measurement model of the parameter estimation filter, with
the AHRS state as input (ahrs.cpp lines 192-198): same formula with the
arguments flipped. -/
def AHRS_MeasurementVector.expected_measurement_accelerometer_flipped
    (state : AHRS_SensorErrorVector) (input : AHRS_StateVector) : UKF.Vector3 :=
  state.AccelerometerBias + UKF.Vector3.cwiseMul state.AccelerometerScaleFactor
    (input.Acceleration + input.Attitude.transformVector ⟨0, 0, -G_ACCEL⟩)

/-- Gyroscope measurement model of the parameter estimation filter
(ahrs.cpp lines 200-206). -/
def AHRS_MeasurementVector.expected_measurement_gyroscope_flipped
    (state : AHRS_SensorErrorVector) (input : AHRS_StateVector) : UKF.Vector3 :=
  state.GyroscopeBias +
    UKF.Vector3.cwiseMul state.GyroscopeScaleFactor input.AngularVelocity

/-- Magnetometer measurement model of the parameter estimation filter
(ahrs.cpp lines 208-215). -/
def AHRS_MeasurementVector.expected_measurement_magnetometer_flipped
    (state : AHRS_SensorErrorVector) (input : AHRS_StateVector) : UKF.Vector3 :=
  state.MagnetometerBias + UKF.mat3ColMajorMulVec state.MagnetometerScaleFactor
    (input.Attitude.transformVector ⟨1.0, 0.0, 0.0⟩)

/-- C3: the AHRS process-model derivative returns, for every state, a
state-shaped object whose Attitude is the quaternion product
`conjugate(omega_q) * q` with `omega_q` having vector part
`AngularVelocity * 0.5` and scalar part 0 and `q` the state attitude, and
whose AngularVelocity and Acceleration are the zero vector. -/
theorem ahrs_derivative_is_conj_half_omega_times_q (s : AHRS_StateVector) :
    s.derivative.Attitude =
      UKF.Quaternion.mul
        (UKF.Quaternion.conj
          ⟨0, s.AngularVelocity.x * 0.5, s.AngularVelocity.y * 0.5, s.AngularVelocity.z * 0.5⟩)
        s.Attitude ∧
    s.derivative.AngularVelocity = ⟨0, 0, 0⟩ ∧
    s.derivative.Acceleration = ⟨0, 0, 0⟩ :=
  ⟨rfl, rfl, rfl⟩

/-- C4: in both directions of the coupled measurement model, the expected
accelerometer measurement is `bias + scale ⊙ (acceleration + attitude ⋅
(0,0,−9.80665))`, the expected gyroscope measurement is `bias + scale ⊙
angular_velocity`, and the expected magnetometer measurement is `bias +
M ⋅ (attitude ⋅ (1,0,0))` where M is the 3x3 matrix formed from the 9
magnetometer scale factor parameters. -/
theorem expected_measurements_are_bias_plus_scaled_prediction
    (s : AHRS_StateVector) (e : AHRS_SensorErrorVector) :
    AHRS_MeasurementVector.expected_measurement_accelerometer s e =
      e.AccelerometerBias + UKF.Vector3.cwiseMul e.AccelerometerScaleFactor
        (s.Acceleration + s.Attitude.transformVector ⟨0, 0, -9.80665⟩) ∧
    AHRS_MeasurementVector.expected_measurement_gyroscope s e =
      e.GyroscopeBias + UKF.Vector3.cwiseMul e.GyroscopeScaleFactor s.AngularVelocity ∧
    AHRS_MeasurementVector.expected_measurement_magnetometer s e =
      e.MagnetometerBias + UKF.mat3ColMajorMulVec e.MagnetometerScaleFactor
        (s.Attitude.transformVector ⟨1, 0, 0⟩) ∧
    AHRS_MeasurementVector.expected_measurement_accelerometer_flipped e s =
      e.AccelerometerBias + UKF.Vector3.cwiseMul e.AccelerometerScaleFactor
        (s.Acceleration + s.Attitude.transformVector ⟨0, 0, -9.80665⟩) ∧
    AHRS_MeasurementVector.expected_measurement_gyroscope_flipped e s =
      e.GyroscopeBias + UKF.Vector3.cwiseMul e.GyroscopeScaleFactor s.AngularVelocity ∧
    AHRS_MeasurementVector.expected_measurement_magnetometer_flipped e s =
      e.MagnetometerBias + UKF.mat3ColMajorMulVec e.MagnetometerScaleFactor
        (s.Attitude.transformVector ⟨1, 0, 0⟩) := by
  refine ⟨?_, rfl, ?_, ?_, rfl, ?_⟩ <;> norm_num [AHRS_MeasurementVector.expected_measurement_accelerometer,
    AHRS_MeasurementVector.expected_measurement_magnetometer,
    AHRS_MeasurementVector.expected_measurement_accelerometer_flipped,
    AHRS_MeasurementVector.expected_measurement_magnetometer_flipped, G_ACCEL]

/-- C5: both process-noise covariances scale the stored noise matrix
linearly by dt: the returned entry is the stored entry times dt, and
scaling dt by any scalar c scales the whole returned matrix by c. -/
theorem process_noise_covariance_linear_in_dt
    (pn : MatQ 9) (epn : MatQ 24) (dt c : ℚ) (i j : Fin 9) (k l : Fin 24) :
    AHRS_StateVector.process_noise_covariance pn dt i j = pn i j * dt ∧
    AHRS_StateVector.process_noise_covariance pn (c * dt) i j =
      c * AHRS_StateVector.process_noise_covariance pn dt i j ∧
    AHRS_SensorErrorVector.process_noise_covariance epn dt k l = epn k l * dt ∧
    AHRS_SensorErrorVector.process_noise_covariance epn (c * dt) k l =
      c * AHRS_SensorErrorVector.process_noise_covariance epn dt k l := by
  refine ⟨rfl, ?_, rfl, ?_⟩ <;>
    simp [AHRS_StateVector.process_noise_covariance,
      AHRS_SensorErrorVector.process_noise_covariance] <;> ring

/-- Square real matrix of side n (for the square-root accessor). -/
abbrev MatR (n : ℕ) := Fin n → Fin n → ℝ

/-- Eigen `.cwiseAbs()`: elementwise absolute value. -/
def cwiseAbs (m : MatR 9) : MatR 9 := fun i j => |m i j|

/-- Eigen `.rowwise().sum()`: the vector of row sums. -/
def rowwiseSum (m : MatR 9) : Fin 9 → ℝ := fun i => ∑ j, m i j

/-- Eigen `.cwiseSqrt()`: elementwise square root. -/
noncomputable def cwiseSqrt (v : Fin 9 → ℝ) : Fin 9 → ℝ := fun i => Real.sqrt (v i)

/-- ukf_get_state_error (ahrs.cpp lines 358-361): writes
`covariance.cwiseAbs().rowwise().sum().cwiseSqrt()` into the output array.
The C function only reads the AHRS covariance; the model returns the output
array together with the (unchanged) covariance. -/
noncomputable def ukf_get_state_error (covariance : MatR 9) : (Fin 9 → ℝ) × MatR 9 :=
  (cwiseSqrt (rowwiseSum (cwiseAbs covariance)), covariance)

/-- C7: for every AHRS covariance matrix P, ukf_get_state_error writes at
each tangent index the square root of the sum of the absolute values of
that row of P, and leaves P unchanged. -/
theorem ukf_get_state_error_is_sqrt_row_abs_sum (P : MatR 9) (i : Fin 9) :
    (ukf_get_state_error P).1 i = Real.sqrt (∑ j, |P i j|) ∧
    (ukf_get_state_error P).2 = P :=
  ⟨rfl, rfl⟩

/-- enum ukf_precision_t (from ahrs.h, mirrored at ahrs.cpp lines 429-435). -/
inductive ukf_precision_t where
  | UKF_PRECISION_FLOAT
  | UKF_PRECISION_DOUBLE
deriving DecidableEq

/-- ukf_config_get_precision (ahrs.cpp lines 429-435): depends only on the
build-time width of real_t (in bytes), never on filter state. -/
def ukf_config_get_precision (sizeof_real_t : ℕ) : ukf_precision_t :=
  if sizeof_real_t = 8 then .UKF_PRECISION_DOUBLE else .UKF_PRECISION_FLOAT

/-- C8: the precision accessor reports double precision when real_t is 64
bits (sizeof 8) and single precision when it is 32 bits (sizeof 4). -/
theorem ukf_config_get_precision_reports_width :
    ukf_config_get_precision 8 = .UKF_PRECISION_DOUBLE ∧
    ukf_config_get_precision 4 = .UKF_PRECISION_FLOAT := by
  decide

/-- Diagonal 9x9 matrix from a diagonal vector. -/
def diag9 (d : Fin 9 → ℚ) : MatQ 9 := fun i j => if i = j then d i else 0

/-- Diagonal 24x24 matrix from a diagonal vector. -/
def diag24 (d : Fin 24 → ℚ) : MatQ 24 := fun i j => if i = j then d i else 0

/-- Initial measurement covariance vector (ahrs.cpp lines 232-234). -/
def AHRS_MeasurementVector.measurement_covariance : Fin 9 → ℚ :=
  ![0.12, 0.12, 0.12, 0.003, 0.003, 0.003, 0.3, 0.3, 0.3]

/-- All the mutable globals that ukf_init writes. -/
structure UkfInitState where
  ahrs_state : AHRS_StateVector
  ahrs_covariance : MatQ 9
  process_noise : MatQ 9
  ahrs_errors_state : AHRS_SensorErrorVector
  ahrs_errors_covariance : MatQ 24
  error_process_noise : MatQ 24

/-- ukf_init (ahrs.cpp lines 241-310): initialises both filter states and
covariances and the two process-noise matrices.  The magnetometer scale
factor field is the column-major map of a diagonal matrix with EARTH_MAG on
the diagonal (lines 262-265). -/
def ukf_init : UkfInitState :=
  { ahrs_state :=
      { Attitude := ⟨1, 0, 0, 0⟩
        AngularVelocity := ⟨0, 0, 0⟩
        Acceleration := ⟨0, 0, 0⟩ }
    ahrs_covariance := diag9 ![1e0, 1e0, 1e0, 1e0, 1e0, 1e0, 5e0, 5e0, 5e0]
    process_noise := diag9 ![7e-5, 7e-5, 7e-5, 1e0, 1e0, 1e0, 2e1, 2e1, 2e1]
    ahrs_errors_state :=
      { AccelerometerBias := ⟨0, 0, 0⟩
        AccelerometerScaleFactor := ⟨1, 1, 1⟩
        GyroscopeBias := ⟨0, 0, 0⟩
        GyroscopeScaleFactor := ⟨1, 1, 1⟩
        MagnetometerBias := ⟨0, 0, 0⟩
        MagnetometerScaleFactor :=
          ![EARTH_MAG, 0, 0, 0, EARTH_MAG, 0, 0, 0, EARTH_MAG] }
    ahrs_errors_covariance := diag24
      ![0.49, 0.49, 0.784, 3.0e-2, 3.0e-2, 3.0e-2,
        0.35, 0.35, 0.35, 3.0e-2, 3.0e-2, 3.0e-2,
        1.0e1, 1.0e1, 1.0e1,
        5.0e-2 * EARTH_MAG, 5.0e-2 * EARTH_MAG, 5.0e-2 * EARTH_MAG,
        5.0e-2 * EARTH_MAG, 5.0e-2 * EARTH_MAG, 5.0e-2 * EARTH_MAG,
        5.0e-2 * EARTH_MAG, 5.0e-2 * EARTH_MAG, 5.0e-2 * EARTH_MAG]
    error_process_noise := diag24
      ![5.2e-5, 5.2e-5, 5.2e-5, 0, 0, 0,
        3.0e-3, 3.0e-3, 3.0e-3, 0, 0, 0,
        1.5e-2, 1.5e-2, 1.5e-2, 0, 0, 0, 0, 0, 0, 0, 0, 0] }

/-- A diagonal matrix agrees entrywise with the ite description of any
vector that agrees with its diagonal. -/
theorem diag9_eq (d v : Fin 9 → ℚ) (h : ∀ i, d i = v i) :
    ∀ i j, diag9 d i j = if i = j then v i else 0 := by
  intro i j
  unfold diag9
  rw [h]

/-- diag24 version of diag9_eq. -/
theorem diag24_eq (d v : Fin 24 → ℚ) (h : ∀ i, d i = v i) :
    ∀ i j, diag24 d i j = if i = j then v i else 0 := by
  intro i j
  unfold diag24
  rw [h]

/-- C9: the tuning defaults set by ukf_init.  Process-noise diagonal 7e-5 /
1.0 / 20.0 per {attitude-tangent, angular-velocity, acceleration} axis;
initial AHRS covariance diagonal (1,1,1,1,1,1,5,5,5); measurement-noise
diagonal 0.12 / 0.003 / 0.3 per {accel, gyro, mag} axis; parameter-filter
process-noise diagonal 5.2e-5 / 0 / 3.0e-3 / 0 / 1.5e-2 / 0 per block;
g = 9.80665; EARTH_MAG = 45.0 on the diagonal (column-major indices
0, 4, 8) of the initial magnetometer scale matrix; all off-diagonal
entries of these matrices are zero. -/
theorem ukf_init_tuning_defaults :
    (∀ i j : Fin 9, ukf_init.process_noise i j =
      if i = j then (if i.val < 3 then 7e-5 else if i.val < 6 then 1.0 else 20.0) else 0) ∧
    (∀ i j : Fin 9, ukf_init.ahrs_covariance i j =
      if i = j then (if i.val < 6 then 1 else 5) else 0) ∧
    (∀ i : Fin 9, AHRS_MeasurementVector.measurement_covariance i =
      if i.val < 3 then 0.12 else if i.val < 6 then 0.003 else 0.3) ∧
    (∀ i j : Fin 24, ukf_init.error_process_noise i j =
      if i = j then
        (if i.val < 3 then 5.2e-5 else if i.val < 6 then 0
         else if i.val < 9 then 3.0e-3 else if i.val < 12 then 0
         else if i.val < 15 then 1.5e-2 else 0)
      else 0) ∧
    G_ACCEL = 9.80665 ∧ EARTH_MAG = 45.0 ∧
    (∀ k : Fin 9, ukf_init.ahrs_errors_state.MagnetometerScaleFactor k =
      if k.val % 4 = 0 then 45.0 else 0) := by
  refine ⟨diag9_eq _ _ ?_, diag9_eq _ _ ?_, ?_, diag24_eq _ _ ?_, rfl, rfl, ?_⟩ <;>
    intro i <;> fin_cases i <;> norm_num [ukf_init, EARTH_MAG,
      AHRS_MeasurementVector.measurement_covariance]

/-- struct ukf_state_t (from ahrs.h): attitude stores the quaternion
components in the order x, y, z, w (scalar last). -/
structure ukf_state_t where
  attitude : Fin 4 → ℚ
  angular_velocity : Fin 3 → ℚ
  acceleration : Fin 3 → ℚ

/-- ukf_get_state (ahrs.cpp lines 324-335): attitude[0..3] = x, y, z, w. -/
def ukf_get_state (s : AHRS_StateVector) : ukf_state_t :=
  { attitude := ![s.Attitude.x, s.Attitude.y, s.Attitude.z, s.Attitude.w]
    angular_velocity :=
      ![s.AngularVelocity.x, s.AngularVelocity.y, s.AngularVelocity.z]
    acceleration := ![s.Acceleration.x, s.Acceleration.y, s.Acceleration.z] }

/-- ukf_set_state (ahrs.cpp lines 337-344): overwrites all three fields of
the AHRS state; the quaternion is built as Quaternion(attitude[3],
attitude[0], attitude[1], attitude[2]), i.e. scalar first from scalar-last
storage. -/
def ukf_set_state (inp : ukf_state_t) (_prev : AHRS_StateVector) : AHRS_StateVector :=
  { Attitude := ⟨inp.attitude 3, inp.attitude 0, inp.attitude 1, inp.attitude 2⟩
    AngularVelocity :=
      ⟨inp.angular_velocity 0, inp.angular_velocity 1, inp.angular_velocity 2⟩
    Acceleration := ⟨inp.acceleration 0, inp.acceleration 1, inp.acceleration 2⟩ }

/-- ukf_set_attitude (ahrs.cpp lines 316-318): takes w, x, y, z in that
order (Eigen constructor order, scalar first). -/
def ukf_set_attitude (w x y z : ℚ) (prev : AHRS_StateVector) : AHRS_StateVector :=
  { prev with Attitude := ⟨w, x, y, z⟩ }

/-- C10: reading the AHRS state with ukf_get_state and writing the result
back with ukf_set_state restores the state exactly, for any intermediate
state; the struct stores the quaternion as x, y, z, w (scalar last), while
ukf_set_attitude takes w, x, y, z (scalar first). -/
theorem ukf_get_set_state_round_trip (s prev : AHRS_StateVector) (w x y z : ℚ) :
    ukf_set_state (ukf_get_state s) prev = s ∧
    (ukf_get_state s).attitude 0 = s.Attitude.x ∧
    (ukf_get_state s).attitude 1 = s.Attitude.y ∧
    (ukf_get_state s).attitude 2 = s.Attitude.z ∧
    (ukf_get_state s).attitude 3 = s.Attitude.w ∧
    (ukf_set_attitude w x y z prev).Attitude = ⟨w, x, y, z⟩ :=
  ⟨rfl, rfl, rfl, rfl, rfl, rfl⟩

/-- AHRS_MeasurementVector (ahrs.cpp lines 105-109): a dynamic measurement
vector; a field is present when the corresponding ukf_sensor_set function
has been called since the last ukf_sensor_clear. -/
structure AHRS_MeasurementVector where
  Accelerometer : Option UKF.Vector3 := none
  Gyroscope : Option UKF.Vector3 := none
  Magnetometer : Option UKF.Vector3 := none

/-- Modelled from the spec: the public surface of a UKF::Core instance that
the coupling driver touches (the library header UKF/Core.h is not part of
this repository).  Per the spec the filter exposes its state mean and, after
an innovation step, its innovation covariance (sized by the shared
measurement vector, here 9). -/
structure CoreState (σ : Type) where
  state : σ
  innovation_covariance : MatQ 9

/-- Modelled from the spec: the three step methods of a UKF::Core filter
with state type σ and exogenous input type ι (spec section on the UKF core
state machine); their implementations live in the library, so the coupling
driver is verified for arbitrary step functions of these shapes. -/
structure FilterSemantics (σ ι : Type) where
  a_priori_step : ℚ → CoreState σ → CoreState σ
  innovation_step : AHRS_MeasurementVector → ι → CoreState σ → CoreState σ
  a_posteriori_step : CoreState σ → CoreState σ

/-- The seven statements of ukf_iterate (ahrs.cpp lines 386-413), in source
order. -/
inductive StepLabel where
  | ahrsAPriori
  | ahrsInnovation
  | ahrsAPosteriori
  | errorsAPriori
  | errorsInnovation
  | crossInjection
  | errorsAPosteriori
deriving DecidableEq, BEq

/-- ukf_iterate (ahrs.cpp lines 386-413), with the two filters passed
explicitly instead of as globals, paired with the trace of its statements:
ahrs.a_priori_step(dt); ahrs.innovation_step(meas, ahrs_errors.state);
ahrs.a_posteriori_step(); ahrs_errors.a_priori_step(dt);
ahrs_errors.innovation_step(meas, ahrs.state);
ahrs_errors.innovation_covariance += ahrs.innovation_covariance;
ahrs_errors.a_posteriori_step(). -/
def ukf_iterate_trace
    (F : FilterSemantics AHRS_StateVector AHRS_SensorErrorVector)
    (G : FilterSemantics AHRS_SensorErrorVector AHRS_StateVector)
    (dt : ℚ) (meas : AHRS_MeasurementVector)
    (ahrs : CoreState AHRS_StateVector)
    (ahrs_errors : CoreState AHRS_SensorErrorVector) :
    (CoreState AHRS_StateVector × CoreState AHRS_SensorErrorVector) × List StepLabel :=
  let ahrs1 := F.a_priori_step dt ahrs
  let ahrs2 := F.innovation_step meas ahrs_errors.state ahrs1
  let ahrs3 := F.a_posteriori_step ahrs2
  let errors1 := G.a_priori_step dt ahrs_errors
  let errors2 := G.innovation_step meas ahrs3.state errors1
  let errors3 := { errors2 with innovation_covariance :=
    fun i j => errors2.innovation_covariance i j + ahrs3.innovation_covariance i j }
  let errors4 := G.a_posteriori_step errors3
  ((ahrs3, errors4),
   [.ahrsAPriori, .ahrsInnovation, .ahrsAPosteriori, .errorsAPriori,
    .errorsInnovation, .crossInjection, .errorsAPosteriori])

/-- ukf_iterate, the returned filter pair only. -/
def ukf_iterate
    (F : FilterSemantics AHRS_StateVector AHRS_SensorErrorVector)
    (G : FilterSemantics AHRS_SensorErrorVector AHRS_StateVector)
    (dt : ℚ) (meas : AHRS_MeasurementVector)
    (ahrs : CoreState AHRS_StateVector)
    (ahrs_errors : CoreState AHRS_SensorErrorVector) :
    CoreState AHRS_StateVector × CoreState AHRS_SensorErrorVector :=
  (ukf_iterate_trace F G dt meas ahrs ahrs_errors).1

/-- The AHRS a-priori mean of a tick: the state right after
ahrs.a_priori_step(dt) (ahrs.cpp line 391), before any update. -/
def ahrs_a_priori_state
    (F : FilterSemantics AHRS_StateVector AHRS_SensorErrorVector)
    (dt : ℚ) (ahrs : CoreState AHRS_StateVector) : AHRS_StateVector :=
  (F.a_priori_step dt ahrs).state

/-- The AHRS filter after its three steps of a tick (ahrs.cpp lines
391-393). -/
def ahrs_after_update
    (F : FilterSemantics AHRS_StateVector AHRS_SensorErrorVector)
    (dt : ℚ) (meas : AHRS_MeasurementVector)
    (ahrs : CoreState AHRS_StateVector)
    (errors_state : AHRS_SensorErrorVector) : CoreState AHRS_StateVector :=
  F.a_posteriori_step (F.innovation_step meas errors_state (F.a_priori_step dt ahrs))

/-- The exogenous input the driver passes to the parameter filter's
innovation step: the value of ahrs.state at ahrs.cpp line 402. -/
def params_innovation_input
    (F : FilterSemantics AHRS_StateVector AHRS_SensorErrorVector)
    (dt : ℚ) (meas : AHRS_MeasurementVector)
    (ahrs : CoreState AHRS_StateVector)
    (errors_state : AHRS_SensorErrorVector) : AHRS_StateVector :=
  (ahrs_after_update F dt meas ahrs errors_state).state

/-- The parameter estimation filter right after its innovation step
(ahrs.cpp lines 396-402). -/
def params_after_innovation
    (F : FilterSemantics AHRS_StateVector AHRS_SensorErrorVector)
    (G : FilterSemantics AHRS_SensorErrorVector AHRS_StateVector)
    (dt : ℚ) (meas : AHRS_MeasurementVector)
    (ahrs : CoreState AHRS_StateVector)
    (ahrs_errors : CoreState AHRS_SensorErrorVector) :
    CoreState AHRS_SensorErrorVector :=
  G.innovation_step meas (params_innovation_input F dt meas ahrs ahrs_errors.state)
    (G.a_priori_step dt ahrs_errors)

/-- The parameter estimation filter between the innovation-covariance
cross-injection (ahrs.cpp line 409) and its a-posteriori step. -/
def params_cross_injected
    (F : FilterSemantics AHRS_StateVector AHRS_SensorErrorVector)
    (G : FilterSemantics AHRS_SensorErrorVector AHRS_StateVector)
    (dt : ℚ) (meas : AHRS_MeasurementVector)
    (ahrs : CoreState AHRS_StateVector)
    (ahrs_errors : CoreState AHRS_SensorErrorVector) :
    CoreState AHRS_SensorErrorVector :=
  let p := params_after_innovation F G dt meas ahrs ahrs_errors
  { p with innovation_covariance := fun i j => p.innovation_covariance i j +
      (ahrs_after_update F dt meas ahrs ahrs_errors.state).innovation_covariance i j }

/-- C2: in every tick, after the parameter filter's innovation step and
before its a-posteriori step, the AHRS innovation covariance is added
elementwise to the parameter filter's innovation covariance; the tick's
result applies the a-posteriori step to exactly that cross-injected filter,
and the AHRS filter's own innovation covariance in the tick's result is the
unchanged value it had before the addition. -/
theorem innovation_covariance_cross_injection
    (F : FilterSemantics AHRS_StateVector AHRS_SensorErrorVector)
    (G : FilterSemantics AHRS_SensorErrorVector AHRS_StateVector)
    (dt : ℚ) (meas : AHRS_MeasurementVector)
    (ahrs : CoreState AHRS_StateVector)
    (ahrs_errors : CoreState AHRS_SensorErrorVector) :
    (∀ i j, (params_cross_injected F G dt meas ahrs ahrs_errors).innovation_covariance i j =
      (params_after_innovation F G dt meas ahrs ahrs_errors).innovation_covariance i j +
      (ahrs_after_update F dt meas ahrs ahrs_errors.state).innovation_covariance i j) ∧
    (params_cross_injected F G dt meas ahrs ahrs_errors).state =
      (params_after_innovation F G dt meas ahrs ahrs_errors).state ∧
    (ukf_iterate F G dt meas ahrs ahrs_errors).2 =
      G.a_posteriori_step (params_cross_injected F G dt meas ahrs ahrs_errors) ∧
    (ukf_iterate F G dt meas ahrs ahrs_errors).1.innovation_covariance =
      (ahrs_after_update F dt meas ahrs ahrs_errors.state).innovation_covariance :=
  ⟨fun _ _ => rfl, rfl, rfl, rfl⟩

/-- C6: every tick performs exactly the seven statements AHRS a-priori,
AHRS innovation, AHRS a-posteriori, parameter-filter a-priori,
parameter-filter innovation, cross-injection, parameter-filter
a-posteriori, in that order, each exactly once. -/
theorem ukf_iterate_step_order
    (F : FilterSemantics AHRS_StateVector AHRS_SensorErrorVector)
    (G : FilterSemantics AHRS_SensorErrorVector AHRS_StateVector)
    (dt : ℚ) (meas : AHRS_MeasurementVector)
    (ahrs : CoreState AHRS_StateVector)
    (ahrs_errors : CoreState AHRS_SensorErrorVector) :
    (ukf_iterate_trace F G dt meas ahrs ahrs_errors).2 =
      [.ahrsAPriori, .ahrsInnovation, .ahrsAPosteriori, .errorsAPriori,
       .errorsInnovation, .crossInjection, .errorsAPosteriori] ∧
    ∀ l : StepLabel, ((ukf_iterate_trace F G dt meas ahrs ahrs_errors).2).count l = 1 :=
  ⟨rfl, fun l => by cases l <;> rfl⟩

/-- The passed exogenous input always equals the AHRS state after the AHRS
a-posteriori step of the same tick (ahrs.cpp line 402 reads ahrs.state
after line 393 ran). -/
theorem params_innovation_input_is_a_posteriori_state
    (F : FilterSemantics AHRS_StateVector AHRS_SensorErrorVector)
    (dt : ℚ) (meas : AHRS_MeasurementVector)
    (ahrs : CoreState AHRS_StateVector)
    (errors_state : AHRS_SensorErrorVector) :
    params_innovation_input F dt meas ahrs errors_state =
      (F.a_posteriori_step (F.innovation_step meas errors_state
        (F.a_priori_step dt ahrs))).state :=
  rfl

/-- Modelled from the spec: the step functions of the AHRS filter for one
concrete tick; the UKF library implementing them is not part of this
repository.  Per the spec, the a-posteriori step retracts the state mean by
the Kalman update K y; this instance is a tick whose update retracts the
angular velocity by (1, 0, 0), while the a-priori step (zero process
derivative for angular velocity) and the innovation step leave the mean
unchanged. -/
def ahrsTickWithUnitKalmanUpdate :
    FilterSemantics AHRS_StateVector AHRS_SensorErrorVector :=
  { a_priori_step := fun _ c => c
    innovation_step := fun _ _ c => c
    a_posteriori_step := fun c =>
      { c with state := { c.state with AngularVelocity :=
          ⟨c.state.AngularVelocity.x + 1, c.state.AngularVelocity.y,
           c.state.AngularVelocity.z⟩ } } }

/-- The AHRS filter as initialised by ukf_init, with a cleared innovation
covariance. -/
def ahrsInitCore : CoreState AHRS_StateVector :=
  { state := ukf_init.ahrs_state, innovation_covariance := fun _ _ => 0 }

/-- C1 (failing-input evaluation): in a tick whose AHRS a-posteriori Kalman
update is nonzero, the exogenous input the driver passes to the parameter
filter's innovation step is not the AHRS a-priori mean: the passed state
already contains the a-posteriori update (angular velocity (1,0,0)) while
the a-priori mean has angular velocity (0,0,0).  The claim, the spec and
the source comment at ahrs.cpp lines 398-401 say the a-priori mean is
passed; the code passes ahrs.state after a_posteriori_step. -/
theorem params_innovation_input_not_a_priori_mean :
    params_innovation_input ahrsTickWithUnitKalmanUpdate (1 / 100) {}
        ahrsInitCore ukf_init.ahrs_errors_state ≠
      ahrs_a_priori_state ahrsTickWithUnitKalmanUpdate (1 / 100) ahrsInitCore ∧
    (params_innovation_input ahrsTickWithUnitKalmanUpdate (1 / 100) {}
        ahrsInitCore ukf_init.ahrs_errors_state).AngularVelocity = ⟨1, 0, 0⟩ ∧
    (ahrs_a_priori_state ahrsTickWithUnitKalmanUpdate (1 / 100)
        ahrsInitCore).AngularVelocity = ⟨0, 0, 0⟩ := by
  have hpost : (params_innovation_input ahrsTickWithUnitKalmanUpdate (1 / 100) {}
      ahrsInitCore ukf_init.ahrs_errors_state).AngularVelocity = ⟨1, 0, 0⟩ := by
    simp [params_innovation_input, ahrs_after_update, ahrsTickWithUnitKalmanUpdate,
      ahrsInitCore, ukf_init]
  have hpri : (ahrs_a_priori_state ahrsTickWithUnitKalmanUpdate (1 / 100)
      ahrsInitCore).AngularVelocity = ⟨0, 0, 0⟩ := rfl
  refine ⟨fun h => ?_, hpost, hpri⟩
  rw [h, hpri] at hpost
  simp at hpost
